import Mathlib

/-!
Verification of the `AzureOpenAIChat` streaming chat-completion client of the
Schedule-AI repository. The same class appears, character for character, in
`src/app.py` (lines 7-65) and `streamlit_app.py` (lines 7-65); it is embedded
twice below (namespaces `App` and `StreamlitApp`) and the two embeddings are
compared.

Modelling choices:
- A response-body line (one item of `response.iter_lines()`) is a `List Char`;
  Python byte-level operations `strip`, `startswith`, slicing `[6:]` become
  structurally recursive functions on character lists.
- The external JSON decoder `json.loads` is an oracle `List Char → Option JValue`
  supplied as a parameter: `none` models a `json.JSONDecodeError`.
- Python's dynamically typed operations on decoded values (`in`, `len`,
  subscripting, `.get`) are modelled on a `JValue` tree, each returning
  `Except PyErr _`. `PyErr.caught` stands for the exception classes named in
  the inner handler (`json.JSONDecodeError`, `IndexError`, `KeyError`), which
  lead to `continue`; `PyErr.uncaught` stands for the others (`TypeError`,
  `AttributeError`, ...) that escape to the outer `except Exception` handler
  and abort the stream with a `RuntimeError`.
- The HTTP exchange is an oracle `HttpOutcome`: either `requests.post` itself
  raises a `requests.exceptions.RequestException`, or it returns a final
  status code and a body line sequence, which may end in a mid-stream
  transport failure (`iter_lines` raising a `RequestException`).
- Floating-point sampling parameters are never computed with, only passed
  through; they are modelled by an arbitrary type parameter `F`.
-/

/-- A decoded JSON value, the possible results of `json.loads`. -/
inductive JValue where
  | null
  | bool (b : Bool)
  | num (n : Int)
  | str (s : String)
  | arr (elems : List JValue)
  | obj (fields : List (String × JValue))

/-- Classification of a Python exception raised inside the decode loop:
`caught` = one of `json.JSONDecodeError`, `IndexError`, `KeyError` (the inner
`except` tuple at line 60 of `src/app.py`, which does `continue`); `uncaught` =
any other exception (`TypeError`, `AttributeError`), which escapes to the
outer `except Exception` at line 64. -/
inductive PyErr where
  | caught
  | uncaught

/-- ASCII whitespace as stripped by Python's `bytes.strip()`. -/
def isAsciiSpace (c : Char) : Bool :=
  c == ' ' || c == '\t' || c == '\n' || c == '\r' || c == '\x0b' || c == '\x0c'

/-- Python `line.strip()`: remove leading and trailing ASCII whitespace. -/
def lineStrip (l : List Char) : List Char :=
  ((l.dropWhile isAsciiSpace).reverse.dropWhile isAsciiSpace).reverse

/-- The characters of a string literal, used to write concrete lines. -/
def chars (s : String) : List Char :=
  s.data

/-- Does `pat` occur as a contiguous run inside `s`? (Python's substring
test `pat in s` for strings.) -/
def hasInfixChars (pat : List Char) : List Char → Bool
  | [] => pat.isEmpty
  | c :: tl => pat.isPrefixOf (c :: tl) || hasInfixChars pat tl

/-- Python `k in xs` for a list `xs`: some element equals the string `k`
(equality between a string and a non-string Python value is `False`). -/
def listHasStr (k : String) : List JValue → Bool
  | [] => false
  | .str s :: tl => s == k || listHasStr k tl
  | _ :: tl => listHasStr k tl

/-- Python `k in j` for a decoded JSON value `j`: key membership for a dict,
element membership for a list, substring test for a string, and a `TypeError`
for every other value. -/
def pyContains (k : String) : JValue → Except PyErr Bool
  | .obj fields => .ok ((fields.find? (fun p => p.1 == k)).isSome)
  | .arr xs => .ok (listHasStr k xs)
  | .str s => .ok (hasInfixChars (chars k) s.data)
  | _ => .error .uncaught

/-- Python `len(j)`: defined for dicts, lists and strings; a `TypeError`
otherwise. -/
def pyLen : JValue → Except PyErr Nat
  | .str s => .ok s.length
  | .arr xs => .ok xs.length
  | .obj fields => .ok fields.length
  | _ => .error .uncaught

/-- Python `j[k]` for a string key `k`: dict lookup (a `KeyError`, caught by
the inner handler, if the key is absent); a `TypeError` (uncaught) when `j` is
not a dict. -/
def pySubscriptKey (j : JValue) (k : String) : Except PyErr JValue :=
  match j with
  | .obj fields =>
    match fields.find? (fun p => p.1 == k) with
    | some p => .ok p.2
    | none => .error .caught
  | _ => .error .uncaught

/-- Python `j[0]`: first element of a list (an `IndexError`, caught, when
empty), first character of a string, a `KeyError` (caught) for a dict since
JSON object keys are strings, and a `TypeError` (uncaught) otherwise. -/
def pySubscriptZero (j : JValue) : Except PyErr JValue :=
  match j with
  | .arr xs =>
    match xs with
    | [] => .error .caught
    | x :: _ => .ok x
  | .str s =>
    match s.data with
    | [] => .error .caught
    | c :: _ => .ok (.str (String.singleton c))
  | .obj _ => .error .caught
  | _ => .error .uncaught

/-- Python `j.get(k, d)`: dict lookup with default; an `AttributeError`
(uncaught by the inner handler) when `j` is not a dict. -/
def pyGetDefault (j : JValue) (k : String) (d : JValue) : Except PyErr JValue :=
  match j with
  | .obj fields =>
    match fields.find? (fun p => p.1 == k) with
    | some p => .ok p.2
    | none => .ok d
  | _ => .error .uncaught

/-- What one non-terminal body line contributes: nothing (`continue` or the
shape tests failing), one yielded fragment, or an uncaught exception that
aborts the whole stream. -/
inductive LineStep where
  | skip
  | yielded (v : JValue)
  | fatal

/-- How the `for line in response.iter_lines()` loop ended: `done` = `break`
on the terminal marker, `exhausted` = the body ran out of lines, `fatal` = an
uncaught exception escaped the loop. -/
inductive LoopOutcome where
  | done
  | exhausted
  | fatal

/-- Result of running the decode loop: the fragments yielded, in order, and
how the loop ended. -/
structure LoopResult where
  fragments : List JValue
  outcome : LoopOutcome

/-- The external secrets store: `st.secrets.get("AZURE_OPENAI_API_ENDPOINT", "")`
and `st.secrets.get("AZURE_OPENAI_API_KEY", "")`; `none` models an absent key. -/
structure Secrets where
  azureOpenAIApiEndpoint : Option String
  azureOpenAIApiKey : Option String

/-- The client object: the two attributes set by `__init__`
(`src/app.py` lines 9-10). -/
structure AzureOpenAIChat where
  API_ENDPOINT : String
  API_KEY : String

/-- The error raised by `__init__` when the key is missing
(`ValueError("Azure OpenAI API Key is missing.")`, line 13); the spec's
`ConfigurationError`. -/
inductive InitError where
  | valueError

/-- One chat message of the request body. -/
structure Message where
  role : String
  content : String

/-- The JSON body built at lines 30-38 of `src/app.py`. `F` is the carrier of
the four floating-point sampling parameters, which are only passed through. -/
structure RequestBody (F : Type) where
  messages : List Message
  max_tokens : Int
  temperature : F
  top_p : F
  frequency_penalty : F
  presence_penalty : F
  stream : Bool

/-- The headers dict built at lines 25-28 of `src/app.py`. -/
structure ReqHeaders where
  contentType : String
  apiKey : String

/-- The one HTTP POST issued by `requests.post` at lines 41-46. -/
structure PostRequest (F : Type) where
  url : String
  headers : ReqHeaders
  body : RequestBody F

/-- The arguments of `generate_response_stream` (lines 15-22). -/
structure StreamArgs (F : Type) where
  query : String
  max_tokens : Int
  temperature : F
  top_p : F
  frequency_penalty : F
  presence_penalty : F

/-- The response body: the lines `iter_lines` delivers, and whether the
transport fails (raising a `requests` exception) after the last delivered
line instead of ending cleanly. -/
structure HttpBody where
  lines : List (List Char)
  midStreamError : Bool

/-- What the HTTP exchange does: `postError` = `requests.post` itself raises a
`RequestException`; `response status body` = a response with the given final
status code whose body yields `body`. -/
inductive HttpOutcome where
  | postError
  | response (status : Nat) (body : HttpBody)

/-- The `RuntimeError` raised by the two outer handlers (lines 62-65):
`requestError` = "Request error: ..." from a `RequestException` (the spec's
`TransportError`); `unexpectedError` = "Unexpected error: ..." from any other
exception (the spec's `StreamingError`). -/
inductive RaisedError where
  | requestError
  | unexpectedError

/-- Observable behaviour of one fully consumed call of
`generate_response_stream`: the single POST request issued, the fragments
yielded in order, and the error the generator raises after the last fragment,
if any. -/
structure StreamRun (F : Type) where
  request : PostRequest F
  fragments : List JValue
  raised : Option RaisedError

/-- `requests.Response.raise_for_status()` raises an `HTTPError` (a
`RequestException`) exactly for status codes 400-599. -/
def raiseForStatusFails (status : Nat) : Bool :=
  decide (400 ≤ status) && decide (status < 600)

namespace App

/-- `AzureOpenAIChat.__init__` of `src/app.py` lines 8-13: read both secrets
with default `""`, then raise iff the key is falsy (the empty string). -/
def init (s : Secrets) : Except InitError AzureOpenAIChat :=
  let apiEndpoint := s.azureOpenAIApiEndpoint.getD ""
  let apiKey := s.azureOpenAIApiKey.getD ""
  if apiKey = "" then .error .valueError
  else .ok ⟨apiEndpoint, apiKey⟩

/-- The body of the inner `try` of `src/app.py` lines 54-61, applied to one
decoded JSON value:
`if "choices" in json_data and len(json_data["choices"]) > 0:`
`  delta = json_data["choices"][0].get("delta", {})`
`  if "content" in delta: yield delta["content"]`,
with the inner `except (json.JSONDecodeError, IndexError, KeyError)` turning
caught errors into a skip and every other exception being fatal. -/
def processPayload (j : JValue) : LineStep :=
  match pyContains "choices" j with
  | .error _ => .fatal
  | .ok false => .skip
  | .ok true =>
    match pySubscriptKey j "choices" with
    | .error .caught => .skip
    | .error .uncaught => .fatal
    | .ok choices =>
      match pyLen choices with
      | .error _ => .fatal
      | .ok n =>
        if n = 0 then .skip
        else
          match pySubscriptZero choices with
          | .error .caught => .skip
          | .error .uncaught => .fatal
          | .ok choicesHead =>
            match pyGetDefault choicesHead "delta" (.obj []) with
            | .error _ => .fatal
            | .ok delta =>
              match pyContains "content" delta with
              | .error _ => .fatal
              | .ok false => .skip
              | .ok true =>
                match pySubscriptKey delta "content" with
                | .error .caught => .skip
                | .error .uncaught => .fatal
                | .ok v => .yielded v

/-- One non-terminal iteration of the loop at `src/app.py` lines 52-61:
`if line.startswith(b"data: "): json_str = line[6:]...; json.loads(...)`,
a failed decode being caught (`continue`), then `processPayload`. -/
def processLine (parse : List Char → Option JValue) (line : List Char) : LineStep :=
  if (chars "data: ").isPrefixOf line then
    match parse (line.drop 6) with
    | none => .skip
    | some j => processPayload j
  else .skip

/-- The loop `for line in response.iter_lines()` of `src/app.py` lines 49-61:
break on `line.strip() == b"data: [DONE]"`, otherwise process the line and
yield, skip, or abort on an uncaught exception. -/
def runLines (parse : List Char → Option JValue) : List (List Char) → LoopResult
  | [] => ⟨[], .exhausted⟩
  | line :: rest =>
    if lineStrip line = chars "data: [DONE]" then ⟨[], .done⟩
    else
      match processLine parse line with
      | .skip => runLines parse rest
      | .yielded v =>
        let r := runLines parse rest
        ⟨v :: r.fragments, r.outcome⟩
      | .fatal => ⟨[], .fatal⟩

/-- The fragments yielded and the error raised, as a function of what the
HTTP exchange does (`src/app.py` lines 40-65): a `RequestException` from
`requests.post`, a failing `raise_for_status`, and a mid-stream transport
failure all surface as `RuntimeError("Request error: ...")`; an uncaught
exception in the decode loop surfaces as `RuntimeError("Unexpected error")`. -/
def httpPhase (parse : List Char → Option JValue) (http : HttpOutcome) :
    List JValue × Option RaisedError :=
  match http with
  | .postError => ([], some .requestError)
  | .response status body =>
    if raiseForStatusFails status then ([], some .requestError)
    else
      let r := runLines parse body.lines
      match r.outcome with
      | .done => (r.fragments, none)
      | .fatal => (r.fragments, some .unexpectedError)
      | .exhausted =>
        (r.fragments, if body.midStreamError then some .requestError else none)

/-- `generate_response_stream` of `src/app.py` lines 15-65, fully consumed:
build the headers (lines 25-28) and body (lines 30-38), issue the one POST
(lines 41-46), and decode the response. -/
def generate_response_stream {F : Type} (parse : List Char → Option JValue)
    (self : AzureOpenAIChat) (a : StreamArgs F) (http : HttpOutcome) : StreamRun F :=
  { request :=
      { url := self.API_ENDPOINT
        headers := { contentType := "application/json", apiKey := self.API_KEY }
        body :=
          { messages := [{ role := "user", content := a.query }]
            max_tokens := a.max_tokens
            temperature := a.temperature
            top_p := a.top_p
            frequency_penalty := a.frequency_penalty
            presence_penalty := a.presence_penalty
            stream := true } }
    fragments := (httpPhase parse http).1
    raised := (httpPhase parse http).2 }

/-- A method call together with the client's state after the call. The method
body (`src/app.py` lines 15-65) contains no assignment to `self`, so the
post-state is the unchanged receiver. -/
def generate_response_stream_call {F : Type} (parse : List Char → Option JValue)
    (self : AzureOpenAIChat) (a : StreamArgs F) (http : HttpOutcome) :
    StreamRun F × AzureOpenAIChat :=
  (generate_response_stream parse self a http, self)

end App

namespace StreamlitApp

/-- `AzureOpenAIChat.__init__` of `streamlit_app.py` lines 8-13: read both
secrets with default `""`, then raise iff the key is falsy (the empty
string). -/
def init (s : Secrets) : Except InitError AzureOpenAIChat :=
  let apiEndpoint := s.azureOpenAIApiEndpoint.getD ""
  let apiKey := s.azureOpenAIApiKey.getD ""
  if apiKey = "" then .error .valueError
  else .ok ⟨apiEndpoint, apiKey⟩

/-- The body of the inner `try` of `streamlit_app.py` lines 54-61, applied to
one decoded JSON value. -/
def processPayload (j : JValue) : LineStep :=
  match pyContains "choices" j with
  | .error _ => .fatal
  | .ok false => .skip
  | .ok true =>
    match pySubscriptKey j "choices" with
    | .error .caught => .skip
    | .error .uncaught => .fatal
    | .ok choices =>
      match pyLen choices with
      | .error _ => .fatal
      | .ok n =>
        if n = 0 then .skip
        else
          match pySubscriptZero choices with
          | .error .caught => .skip
          | .error .uncaught => .fatal
          | .ok choicesHead =>
            match pyGetDefault choicesHead "delta" (.obj []) with
            | .error _ => .fatal
            | .ok delta =>
              match pyContains "content" delta with
              | .error _ => .fatal
              | .ok false => .skip
              | .ok true =>
                match pySubscriptKey delta "content" with
                | .error .caught => .skip
                | .error .uncaught => .fatal
                | .ok v => .yielded v

/-- One non-terminal iteration of the loop at `streamlit_app.py`
lines 52-61. -/
def processLine (parse : List Char → Option JValue) (line : List Char) : LineStep :=
  if (chars "data: ").isPrefixOf line then
    match parse (line.drop 6) with
    | none => .skip
    | some j => processPayload j
  else .skip

/-- The loop `for line in response.iter_lines()` of `streamlit_app.py`
lines 49-61. -/
def runLines (parse : List Char → Option JValue) : List (List Char) → LoopResult
  | [] => ⟨[], .exhausted⟩
  | line :: rest =>
    if lineStrip line = chars "data: [DONE]" then ⟨[], .done⟩
    else
      match processLine parse line with
      | .skip => runLines parse rest
      | .yielded v =>
        let r := runLines parse rest
        ⟨v :: r.fragments, r.outcome⟩
      | .fatal => ⟨[], .fatal⟩

/-- The fragments yielded and the error raised, as a function of what the
HTTP exchange does (`streamlit_app.py` lines 40-65). -/
def httpPhase (parse : List Char → Option JValue) (http : HttpOutcome) :
    List JValue × Option RaisedError :=
  match http with
  | .postError => ([], some .requestError)
  | .response status body =>
    if raiseForStatusFails status then ([], some .requestError)
    else
      let r := runLines parse body.lines
      match r.outcome with
      | .done => (r.fragments, none)
      | .fatal => (r.fragments, some .unexpectedError)
      | .exhausted =>
        (r.fragments, if body.midStreamError then some .requestError else none)

/-- `generate_response_stream` of `streamlit_app.py` lines 15-65, fully
consumed. -/
def generate_response_stream {F : Type} (parse : List Char → Option JValue)
    (self : AzureOpenAIChat) (a : StreamArgs F) (http : HttpOutcome) : StreamRun F :=
  { request :=
      { url := self.API_ENDPOINT
        headers := { contentType := "application/json", apiKey := self.API_KEY }
        body :=
          { messages := [{ role := "user", content := a.query }]
            max_tokens := a.max_tokens
            temperature := a.temperature
            top_p := a.top_p
            frequency_penalty := a.frequency_penalty
            presence_penalty := a.presence_penalty
            stream := true } }
    fragments := (httpPhase parse http).1
    raised := (httpPhase parse http).2 }

end StreamlitApp

/-- Field lookup in a decoded JSON value, used to state the well-formedness
conditions of the spec: the value of a member of a JSON object, `none` for a
missing member or a non-object. -/
def jsonLookup (j : JValue) (k : String) : Option JValue :=
  match j with
  | .obj fields => (fields.find? (fun p => p.1 == k)).map (fun p => p.2)
  | _ => none

/-- Modelled from the spec: the `choices[0].delta.content` member of a
well-formed decoded event, per spec section 4.1 decoding policy step 3: a
non-empty array member `choices` whose first element has an object member
`delta` containing a member `content`. -/
def specContentOfJson (j : JValue) : Option JValue :=
  match jsonLookup j "choices" with
  | some (.arr (choicesHead :: _)) =>
    match jsonLookup choicesHead "delta" with
    | some delta => jsonLookup delta "content"
    | none => none
  | _ => none

/-- Modelled from the spec: the fragment contributed by one well-formed
non-terminal `data: ` line, if any. -/
def specContentOfLine (parse : List Char → Option JValue) (line : List Char) :
    Option JValue :=
  if (chars "data: ").isPrefixOf line then
    match parse (line.drop 6) with
    | some j => specContentOfJson j
    | none => none
  else none

/-- Modelled from the spec: the non-terminal lines of a body, those before
the first line whose stripped form is the terminal marker `data: [DONE]`. -/
def specNonTerminalLines (lines : List (List Char)) : List (List Char) :=
  lines.takeWhile (fun l => !(lineStrip l = chars "data: [DONE]" : Bool))

/-- The text of a fragment (yielded fragments of well-formed events are JSON
strings; any other value renders as the empty string for concatenation). -/
def contentString : JValue → String
  | .str s => s
  | _ => ""

/-- Concatenation of the texts of a fragment sequence, in order. -/
def concatFragments (vs : List JValue) : String :=
  String.join (vs.map contentString)

/-- Does this line step abort the stream with an uncaught exception? -/
def LineStep.isFatal : LineStep → Bool
  | .fatal => true
  | _ => false

/-- The concrete decoded event behind the fragment `Hi`. -/
def goodJson1 : JValue :=
  .obj [("choices", .arr [.obj [("delta", .obj [("content", .str "Hi")])]])]

/-- The concrete decoded event behind the fragment `· there`. -/
def goodJson2 : JValue :=
  .obj [("choices", .arr [.obj [("delta", .obj [("content", .str " there")])]])]

/-- The JSON text of `goodJson1`. -/
def payload1 : String :=
  "\x7b\"choices\":[\x7b\"delta\":\x7b\"content\":\"Hi\"\x7d\x7d]\x7d"

/-- The JSON text of `goodJson2`. -/
def payload2 : String :=
  "\x7b\"choices\":[\x7b\"delta\":\x7b\"content\":\" there\"\x7d\x7d]\x7d"

/-- A concrete JSON-decoding oracle for the runs below: the two well-formed
payloads, the payload `5` (a JSON number), the empty object, and a decode
failure on everything else. -/
def wParse : List Char → Option JValue := fun l =>
  if l = chars payload1 then some goodJson1
  else if l = chars payload2 then some goodJson2
  else if l = chars "5" then some (JValue.num 5)
  else if l = chars "\x7b\x7d" then some (JValue.obj [])
  else none

/-- The body line carrying `goodJson1`. -/
def line1 : List Char := chars ("data: " ++ payload1)

/-- The body line carrying `goodJson2`. -/
def line2 : List Char := chars ("data: " ++ payload2)

/-- The terminal marker line. -/
def doneLine : List Char := chars "data: [DONE]"

/-- A concrete client for the runs below. -/
def cexClient : AzureOpenAIChat :=
  { API_ENDPOINT := "https://example.invalid/chat", API_KEY := "k" }

/-- Concrete call arguments for the runs below (`F` instantiated at `Int`). -/
def cexArgs : StreamArgs Int :=
  { query := "Hello", max_tokens := 1000, temperature := 7, top_p := 10
    frequency_penalty := 0, presence_penalty := 0 }

/-- A well-formed body: two fragments then the terminal marker. -/
def wLines : List (List Char) := [line1, line2, doneLine]

/-- A body whose first event decodes to the JSON number `5`, followed by a
well-formed fragment and the terminal marker. -/
def cexLines : List (List Char) := [chars "data: 5", line1, doneLine]

/-- A second JSON-decoding oracle for the C2 runs: a string payload, an array
payload, an object whose `choices` member is a dict, and the empty object —
the lack-of-shape cases the inner handler tolerates silently. -/
def w2Parse : List Char → Option JValue := fun l =>
  if l = chars "\"hello\"" then some (JValue.str "hello")
  else if l = chars "[1]" then some (JValue.arr [JValue.num 1])
  else if l = chars "\x7b\"choices\":\x7b\"a\":1\x7d\x7d" then
    some (JValue.obj [("choices", JValue.obj [("a", JValue.num 1)])])
  else if l = chars "\x7b\x7d" then some (JValue.obj [])
  else none

/-- The complete set of benign lack-of-shape conditions — the decoded values
that fail the expected-shape test while every dynamic operation along the way
either succeeds or raises only an exception of the inner handler (a
`KeyError`): a string payload not containing `choices`; an array payload not
containing `choices`; an object with no `choices` member; a `choices` member
that is an empty array, an empty string, or a dict of any size (the integer
subscript `[0]` raises a caught `KeyError`); or a non-empty `choices` array
whose first element is an object whose `delta` member is absent, is an object
without `content`, or is a string or array not containing `content`. -/
def benignShapeMiss (j : JValue) : Prop :=
  (∃ s, j = JValue.str s ∧ hasInfixChars (chars "choices") s.data = false)
  ∨ (∃ xs, j = JValue.arr xs ∧ listHasStr "choices" xs = false)
  ∨ (∃ fields, j = JValue.obj fields ∧
      (jsonLookup j "choices" = none
       ∨ jsonLookup j "choices" = some (.arr [])
       ∨ (∃ zs, jsonLookup j "choices" = some (JValue.obj zs))
       ∨ jsonLookup j "choices" = some (JValue.str "")
       ∨ ∃ g choicesTail,
           jsonLookup j "choices" = some (.arr (JValue.obj g :: choicesTail))
           ∧ (jsonLookup (JValue.obj g) "delta" = none
              ∨ (∃ dfs, jsonLookup (JValue.obj g) "delta" = some (JValue.obj dfs)
                  ∧ jsonLookup (JValue.obj dfs) "content" = none)
              ∨ (∃ t, jsonLookup (JValue.obj g) "delta" = some (JValue.str t)
                  ∧ hasInfixChars (chars "content") t.data = false)
              ∨ (∃ zs, jsonLookup (JValue.obj g) "delta" = some (JValue.arr zs)
                  ∧ listHasStr "content" zs = false))))

/-- On a decoded value on which the decode body raises no uncaught exception,
the inner try-body yields exactly the well-formed `choices[0].delta.content`
member when present and skips otherwise. -/
theorem App.processPayload_of_not_fatal (j : JValue)
    (h : App.processPayload j ≠ LineStep.fatal) :
    App.processPayload j = (specContentOfJson j).elim LineStep.skip LineStep.yielded := by
  cases j with
  | null => exact absurd rfl h
  | bool b => exact absurd rfl h
  | num n => exact absurd rfl h
  | str s =>
    cases hb : hasInfixChars (chars "choices") s.data with
    | false =>
      simp [App.processPayload, pyContains, hb, specContentOfJson, jsonLookup]
    | true =>
      exact absurd (by simp [App.processPayload, pyContains, hb, pySubscriptKey]) h
  | arr xs =>
    cases hb : listHasStr "choices" xs with
    | false =>
      simp [App.processPayload, pyContains, hb, specContentOfJson, jsonLookup]
    | true =>
      exact absurd (by simp [App.processPayload, pyContains, hb, pySubscriptKey]) h
  | obj fields =>
    cases hf : fields.find? (fun p => p.1 == "choices") with
    | none =>
      simp [App.processPayload, pyContains, hf, specContentOfJson, jsonLookup]
    | some pc =>
      obtain ⟨kc, vc⟩ := pc
      cases vc with
      | null =>
        exact absurd (by simp [App.processPayload, pyContains, pySubscriptKey, pyLen, hf]) h
      | bool b =>
        exact absurd (by simp [App.processPayload, pyContains, pySubscriptKey, pyLen, hf]) h
      | num n =>
        exact absurd (by simp [App.processPayload, pyContains, pySubscriptKey, pyLen, hf]) h
      | str cs =>
        cases hcd : cs.data with
        | nil =>
          have hlen : cs.length = 0 := by simp [String.length, hcd]
          simp [App.processPayload, pyContains, pySubscriptKey, pyLen, hf, hlen,
            specContentOfJson, jsonLookup]
        | cons c ctl =>
          have hlen : ¬ cs.length = 0 := by simp [String.length, hcd]
          exact absurd (by simp [App.processPayload, pyContains, pySubscriptKey, pyLen, hf,
            hlen, pySubscriptZero, hcd, pyGetDefault]) h
      | arr ys =>
        cases ys with
        | nil =>
          simp [App.processPayload, pyContains, pySubscriptKey, pyLen, hf,
            specContentOfJson, jsonLookup]
        | cons c0 ctl =>
          cases c0 with
          | null =>
            exact absurd (by simp [App.processPayload, pyContains, pySubscriptKey, pyLen,
              hf, pySubscriptZero, pyGetDefault]) h
          | bool b =>
            exact absurd (by simp [App.processPayload, pyContains, pySubscriptKey, pyLen,
              hf, pySubscriptZero, pyGetDefault]) h
          | num n =>
            exact absurd (by simp [App.processPayload, pyContains, pySubscriptKey, pyLen,
              hf, pySubscriptZero, pyGetDefault]) h
          | str t0 =>
            exact absurd (by simp [App.processPayload, pyContains, pySubscriptKey, pyLen,
              hf, pySubscriptZero, pyGetDefault]) h
          | arr zs0 =>
            exact absurd (by simp [App.processPayload, pyContains, pySubscriptKey, pyLen,
              hf, pySubscriptZero, pyGetDefault]) h
          | obj g =>
            cases hg : g.find? (fun p => p.1 == "delta") with
            | none =>
              simp [App.processPayload, pyContains, pySubscriptKey, pyLen, hf,
                pySubscriptZero, pyGetDefault, hg, specContentOfJson, jsonLookup]
            | some pd =>
              obtain ⟨kd, vd⟩ := pd
              cases vd with
              | null =>
                exact absurd (by simp [App.processPayload, pyContains, pySubscriptKey,
                  pyLen, hf, pySubscriptZero, pyGetDefault, hg]) h
              | bool b =>
                exact absurd (by simp [App.processPayload, pyContains, pySubscriptKey,
                  pyLen, hf, pySubscriptZero, pyGetDefault, hg]) h
              | num n =>
                exact absurd (by simp [App.processPayload, pyContains, pySubscriptKey,
                  pyLen, hf, pySubscriptZero, pyGetDefault, hg]) h
              | str t =>
                cases hb2 : hasInfixChars (chars "content") t.data with
                | false =>
                  simp [App.processPayload, pyContains, pySubscriptKey, pyLen, hf,
                    pySubscriptZero, pyGetDefault, hg, hb2, specContentOfJson, jsonLookup]
                | true =>
                  exact absurd (by simp [App.processPayload, pyContains, pySubscriptKey,
                    pyLen, hf, pySubscriptZero, pyGetDefault, hg, hb2]) h
              | arr zs =>
                cases hb2 : listHasStr "content" zs with
                | false =>
                  simp [App.processPayload, pyContains, pySubscriptKey, pyLen, hf,
                    pySubscriptZero, pyGetDefault, hg, hb2, specContentOfJson, jsonLookup]
                | true =>
                  exact absurd (by simp [App.processPayload, pyContains, pySubscriptKey,
                    pyLen, hf, pySubscriptZero, pyGetDefault, hg, hb2]) h
              | obj dfs =>
                cases hd2 : dfs.find? (fun p => p.1 == "content") with
                | none =>
                  simp [App.processPayload, pyContains, pySubscriptKey, pyLen, hf,
                    pySubscriptZero, pyGetDefault, hg, hd2, specContentOfJson, jsonLookup]
                | some pr =>
                  simp [App.processPayload, pyContains, pySubscriptKey, pyLen, hf,
                    pySubscriptZero, pyGetDefault, hg, hd2, specContentOfJson, jsonLookup]
      | obj zs =>
        cases zs with
        | nil =>
          simp [App.processPayload, pyContains, pySubscriptKey, pyLen, hf,
            specContentOfJson, jsonLookup]
        | cons z ztl =>
          simp [App.processPayload, pyContains, pySubscriptKey, pyLen, hf,
            pySubscriptZero, specContentOfJson, jsonLookup]

/-- A non-terminal line that does not abort the stream contributes exactly
its spec-side content: a yield when well formed, a silent skip otherwise. -/
theorem App.processLine_of_not_fatal (parse : List Char → Option JValue)
    (line : List Char) (h : App.processLine parse line ≠ LineStep.fatal) :
    App.processLine parse line
      = (specContentOfLine parse line).elim LineStep.skip LineStep.yielded := by
  by_cases hp : (chars "data: ").isPrefixOf line = true
  · cases hparse : parse (line.drop 6) with
    | none => simp [App.processLine, specContentOfLine, hp, hparse]
    | some j =>
      have hppj : App.processPayload j ≠ LineStep.fatal := by
        simpa [App.processLine, hp, hparse] using h
      simp [App.processLine, specContentOfLine, hp, hparse,
        App.processPayload_of_not_fatal j hppj]
  · simp [App.processLine, specContentOfLine, hp]

/-- A decoded object of the expected shape makes the inner try-body yield the
`content` member of the first choice. -/
theorem App.processPayload_yield (fields g dfs : List (String × JValue))
    (choicesTail : List JValue) (v : JValue)
    (hch : jsonLookup (.obj fields) "choices" = some (.arr (JValue.obj g :: choicesTail)))
    (hdelta : jsonLookup (.obj g) "delta" = some (.obj dfs))
    (hcontent : jsonLookup (.obj dfs) "content" = some v) :
    App.processPayload (.obj fields) = LineStep.yielded v := by
  simp only [jsonLookup] at hch hdelta hcontent
  cases hf : fields.find? (fun p => p.1 == "choices") with
  | none => rw [hf] at hch; exact Option.noConfusion hch
  | some pc =>
    rw [hf] at hch
    simp only [Option.map_some', Option.some.injEq] at hch
    cases hg : g.find? (fun p => p.1 == "delta") with
    | none => rw [hg] at hdelta; exact Option.noConfusion hdelta
    | some pd =>
      rw [hg] at hdelta
      simp only [Option.map_some', Option.some.injEq] at hdelta
      cases hd2 : dfs.find? (fun p => p.1 == "content") with
      | none => rw [hd2] at hcontent; exact Option.noConfusion hcontent
      | some pr =>
        rw [hd2] at hcontent
        simp only [Option.map_some', Option.some.injEq] at hcontent
        simp [App.processPayload, pyContains, pySubscriptKey, pyLen, hf, hch,
          pySubscriptZero, pyGetDefault, hg, hdelta, hd2, hcontent]

/-- A decoded value that benignly lacks the expected shape makes the inner
try-body skip. -/
theorem App.processPayload_skip_of_benign (j : JValue)
    (h : benignShapeMiss j) :
    App.processPayload j = LineStep.skip := by
  rcases h with ⟨s, rfl, hb⟩ | ⟨xs, rfl, hb⟩ | ⟨fields, rfl, hobj⟩
  · simp [App.processPayload, pyContains, hb]
  · simp [App.processPayload, pyContains, hb]
  rcases hobj with hnone | hempty | ⟨zs, hdict⟩ | hestr | ⟨g, choicesTail, hch, hrest⟩
  · simp only [jsonLookup, Option.map_eq_none'] at hnone
    simp [App.processPayload, pyContains, hnone]
  · simp only [jsonLookup] at hempty
    cases hf : fields.find? (fun p => p.1 == "choices") with
    | none => rw [hf] at hempty; exact Option.noConfusion hempty
    | some pc =>
      rw [hf] at hempty
      simp only [Option.map_some', Option.some.injEq] at hempty
      simp [App.processPayload, pyContains, pySubscriptKey, pyLen, hf, hempty]
  · simp only [jsonLookup] at hdict
    cases hf : fields.find? (fun p => p.1 == "choices") with
    | none => rw [hf] at hdict; exact Option.noConfusion hdict
    | some pc =>
      rw [hf] at hdict
      simp only [Option.map_some', Option.some.injEq] at hdict
      cases zs with
      | nil => simp [App.processPayload, pyContains, pySubscriptKey, pyLen, hf, hdict]
      | cons z ztl =>
        simp [App.processPayload, pyContains, pySubscriptKey, pyLen, hf, hdict,
          pySubscriptZero]
  · simp only [jsonLookup] at hestr
    cases hf : fields.find? (fun p => p.1 == "choices") with
    | none => rw [hf] at hestr; exact Option.noConfusion hestr
    | some pc =>
      rw [hf] at hestr
      simp only [Option.map_some', Option.some.injEq] at hestr
      have h0 : ("" : String).length = 0 := rfl
      simp [App.processPayload, pyContains, pySubscriptKey, pyLen, hf, hestr, h0]
  · simp only [jsonLookup] at hch
    cases hf : fields.find? (fun p => p.1 == "choices") with
    | none => rw [hf] at hch; exact Option.noConfusion hch
    | some pc =>
      rw [hf] at hch
      simp only [Option.map_some', Option.some.injEq] at hch
      rcases hrest with hdnone | ⟨dfs, hdsome, hcnone⟩ | ⟨t, hdsome, hb2⟩ | ⟨zs, hdsome, hb2⟩
      · simp only [jsonLookup, Option.map_eq_none'] at hdnone
        simp [App.processPayload, pyContains, pySubscriptKey, pyLen, hf, hch,
          pySubscriptZero, pyGetDefault, hdnone]
      · simp only [jsonLookup] at hdsome hcnone
        cases hg : g.find? (fun p => p.1 == "delta") with
        | none => rw [hg] at hdsome; exact Option.noConfusion hdsome
        | some pd =>
          rw [hg] at hdsome
          simp only [Option.map_some', Option.some.injEq] at hdsome
          simp only [Option.map_eq_none'] at hcnone
          simp [App.processPayload, pyContains, pySubscriptKey, pyLen, hf, hch,
            pySubscriptZero, pyGetDefault, hg, hdsome, hcnone]
      · simp only [jsonLookup] at hdsome
        cases hg : g.find? (fun p => p.1 == "delta") with
        | none => rw [hg] at hdsome; exact Option.noConfusion hdsome
        | some pd =>
          rw [hg] at hdsome
          simp only [Option.map_some', Option.some.injEq] at hdsome
          simp [App.processPayload, pyContains, pySubscriptKey, pyLen, hf, hch,
            pySubscriptZero, pyGetDefault, hg, hdsome, hb2]
      · simp only [jsonLookup] at hdsome
        cases hg : g.find? (fun p => p.1 == "delta") with
        | none => rw [hg] at hdsome; exact Option.noConfusion hdsome
        | some pd =>
          rw [hg] at hdsome
          simp only [Option.map_some', Option.some.injEq] at hdsome
          simp [App.processPayload, pyContains, pySubscriptKey, pyLen, hf, hch,
            pySubscriptZero, pyGetDefault, hg, hdsome, hb2]

/-- The two copies of the inner try-body are the same function. -/
theorem streamlit_processPayload_eq (j : JValue) :
    StreamlitApp.processPayload j = App.processPayload j := rfl

/-- The two copies of the per-line step are the same function. -/
theorem streamlit_processLine_eq (parse : List Char → Option JValue)
    (line : List Char) :
    StreamlitApp.processLine parse line = App.processLine parse line := rfl

/-- The two copies of the decode loop are the same function. -/
theorem streamlit_runLines_eq (parse : List Char → Option JValue)
    (lines : List (List Char)) :
    StreamlitApp.runLines parse lines = App.runLines parse lines := by
  induction lines with
  | nil => rfl
  | cons l tl ih =>
    simp only [StreamlitApp.runLines, App.runLines, streamlit_processLine_eq, ih]

/-- The two copies of the exchange phase are the same function. -/
theorem streamlit_httpPhase_eq (parse : List Char → Option JValue)
    (http : HttpOutcome) :
    StreamlitApp.httpPhase parse http = App.httpPhase parse http := by
  cases http with
  | postError => rfl
  | response status body =>
    simp only [StreamlitApp.httpPhase, App.httpPhase, streamlit_runLines_eq]

/-- Claim C1 (amended): for every sequence of response-body lines on which no
line makes the decode loop raise (no decoded payload of a dynamically
ill-typed shape), the sequence of fragments yielded by the decode loop of
`generate_response_stream` equals, element for element and in line order, the
`choices[0].delta.content` members of the well-formed non-terminal `data: `
lines — so their concatenations are equal, and no fragment is duplicated or
dropped except from lines that fail to parse. -/
theorem claim_C1 (parse : List Char → Option JValue) (lines : List (List Char))
    (h : ∀ l ∈ lines, App.processLine parse l ≠ LineStep.fatal) :
    (App.runLines parse lines).fragments
      = (specNonTerminalLines lines).filterMap (specContentOfLine parse)
    ∧ concatFragments (App.runLines parse lines).fragments
      = concatFragments
          ((specNonTerminalLines lines).filterMap (specContentOfLine parse)) := by
  have main : ∀ ls : List (List Char),
      (∀ l ∈ ls, App.processLine parse l ≠ LineStep.fatal) →
      (App.runLines parse ls).fragments
        = (specNonTerminalLines ls).filterMap (specContentOfLine parse) := by
    intro ls
    induction ls with
    | nil => intro _; simp [App.runLines, specNonTerminalLines]
    | cons l tl ih =>
      intro hh
      have hl := hh l (List.mem_cons_self l tl)
      have htl : ∀ x ∈ tl, App.processLine parse x ≠ LineStep.fatal :=
        fun x hx => hh x (List.mem_cons_of_mem l hx)
      by_cases hdone : lineStrip l = chars "data: [DONE]"
      · simp [App.runLines, hdone, specNonTerminalLines]
      · have hstep := App.processLine_of_not_fatal parse l hl
        cases hspec : specContentOfLine parse l with
        | none =>
          rw [hspec] at hstep
          simp only [Option.elim] at hstep
          simp [App.runLines, hdone, hstep, specNonTerminalLines, hspec, ih htl]
        | some v =>
          rw [hspec] at hstep
          simp only [Option.elim] at hstep
          simp [App.runLines, hdone, hstep, specNonTerminalLines, hspec, ih htl]
  exact ⟨main lines h, by rw [main lines h]⟩

/-- Witness for C1: the spec's end-to-end scenario 1, two well-formed events
then the terminal marker; the fragments are `Hi` and `· there`. -/
theorem claim_C1_witness :
    ((App.runLines wParse wLines).fragments
      = (specNonTerminalLines wLines).filterMap (specContentOfLine wParse)
    ∧ concatFragments (App.runLines wParse wLines).fragments
      = concatFragments
          ((specNonTerminalLines wLines).filterMap (specContentOfLine wParse)))
    ∧ concatFragments (App.runLines wParse wLines).fragments = "Hi there" :=
  ⟨claim_C1 wParse wLines (by
      intro l hl
      have hcases : l = line1 ∨ l = line2 ∨ l = doneLine := by
        simpa [wLines] using hl
      rcases hcases with rfl | rfl | rfl
      · exact fun hc => LineStep.noConfusion hc
      · exact fun hc => LineStep.noConfusion hc
      · exact fun hc => LineStep.noConfusion hc),
   rfl⟩

/-- Counterexample to C1 as stated: on the body
`[data: 5, data: (well-formed Hi event), data: [DONE]]` every line either
decodes or is the terminal marker, and the well-formed `Hi` line parses, yet
the loop yields nothing at all — the decoded number `5` makes
`"choices" in json_data` raise a `TypeError`, which the inner handler does
not catch, so the stream aborts and the `Hi` fragment of a perfectly parsed
line is dropped: the two concatenations differ. -/
theorem claim_C1_counterexample :
    wParse (chars "5") = some (JValue.num 5)
    ∧ (App.runLines wParse cexLines).fragments = []
    ∧ (specNonTerminalLines cexLines).filterMap (specContentOfLine wParse)
        = [JValue.str "Hi"]
    ∧ concatFragments (App.runLines wParse cexLines).fragments = ""
    ∧ concatFragments
        ((specNonTerminalLines cexLines).filterMap (specContentOfLine wParse))
        = "Hi" :=
  ⟨rfl, rfl, rfl, rfl, rfl⟩

/-- Claim C2 (amended): for every line of the response body that is not the
terminal marker, if the line does not begin with `data: `, or its payload
fails JSON decoding, or the payload decodes to a value that lacks the
expected shape in one of the ways the inner handler tolerates — a string or
array payload not containing `choices`; an object with no `choices` member;
a `choices` member that is an empty array, an empty string, or a dict of any
size (the integer subscript raises a `KeyError`, which is caught); or a
non-empty `choices` array whose first element is an object whose `delta`
member is absent, is an object without `content`, or is a string or array
not containing `content` — then the decode loop skips that line silently:
it never raises, never yields a fragment for it, and continues with the next
line. (In the remaining lacks-shape cases the stream can instead abort: a
payload decoding to the JSON number 5 raises an uncaught `TypeError`, per
the counterexample.) -/
theorem claim_C2 (parse : List Char → Option JValue) (line : List Char)
    (h : (chars "data: ").isPrefixOf line = false
       ∨ parse (line.drop 6) = none
       ∨ ∃ j, parse (line.drop 6) = some j ∧ benignShapeMiss j) :
    App.processLine parse line = LineStep.skip := by
  rcases h with hp | hn | ⟨j, hparse, hmiss⟩
  · simp [App.processLine, hp]
  · by_cases hp : (chars "data: ").isPrefixOf line = true
    · simp [App.processLine, hp, hn]
    · simp [App.processLine, hp]
  · by_cases hp : (chars "data: ").isPrefixOf line = true
    · simp [App.processLine, hp, hparse,
        App.processPayload_skip_of_benign j hmiss]
    · simp [App.processLine, hp]

/-- Witness for C2: a keep-alive line without the `data: ` tag; a string
payload; an array payload; an object payload whose `choices` is a dict; and
the empty-object payload — all skipped silently. -/
theorem claim_C2_witness :
    App.processLine w2Parse (chars "ping") = LineStep.skip
    ∧ App.processLine w2Parse (chars "data: \"hello\"") = LineStep.skip
    ∧ App.processLine w2Parse (chars "data: [1]") = LineStep.skip
    ∧ App.processLine w2Parse (chars "data: \x7b\"choices\":\x7b\"a\":1\x7d\x7d")
        = LineStep.skip
    ∧ App.processLine w2Parse (chars "data: \x7b\x7d") = LineStep.skip :=
  ⟨claim_C2 w2Parse (chars "ping") (Or.inl rfl),
   claim_C2 w2Parse (chars "data: \"hello\"")
     (Or.inr (Or.inr ⟨JValue.str "hello", rfl, Or.inl ⟨"hello", rfl, rfl⟩⟩)),
   claim_C2 w2Parse (chars "data: [1]")
     (Or.inr (Or.inr ⟨JValue.arr [JValue.num 1], rfl,
       Or.inr (Or.inl ⟨[JValue.num 1], rfl, rfl⟩)⟩)),
   claim_C2 w2Parse (chars "data: \x7b\"choices\":\x7b\"a\":1\x7d\x7d")
     (Or.inr (Or.inr ⟨JValue.obj [("choices", JValue.obj [("a", JValue.num 1)])], rfl,
       Or.inr (Or.inr ⟨[("choices", JValue.obj [("a", JValue.num 1)])], rfl,
         Or.inr (Or.inr (Or.inl ⟨[("a", JValue.num 1)], rfl⟩))⟩)⟩)),
   claim_C2 w2Parse (chars "data: \x7b\x7d")
     (Or.inr (Or.inr ⟨JValue.obj [], rfl,
       Or.inr (Or.inr ⟨[], rfl, Or.inl rfl⟩)⟩))⟩

/-- Counterexample to C2 as stated: the line `data: 5` decodes to the JSON
number `5`, which has no `choices` member, yet the decode loop does not skip
it silently — `"choices" in 5` raises a `TypeError` that the inner handler
does not catch, so the line is fatal and the generator raises
`RuntimeError("Unexpected error: ...")`. -/
theorem claim_C2_counterexample :
    wParse ((chars "data: 5").drop 6) = some (JValue.num 5)
    ∧ jsonLookup (JValue.num 5) "choices" = none
    ∧ App.processLine wParse (chars "data: 5") = LineStep.fatal :=
  ⟨rfl, rfl, rfl⟩

/-- Claim C3: a line whose stripped form equals the literal `data: [DONE]`
ends the yielded sequence immediately: the run over any body that reaches it
is identical to the run of the body truncated right after it, so no later
line is read or contributes to the output, and the marker line itself yields
no fragment and ends the loop. -/
theorem claim_C3 (parse : List Char → Option JValue) (pre post : List (List Char))
    (d : List Char) (hd : lineStrip d = chars "data: [DONE]") :
    App.runLines parse (pre ++ d :: post) = App.runLines parse (pre ++ [d])
    ∧ App.runLines parse (d :: post) = ⟨[], LoopOutcome.done⟩ := by
  constructor
  · induction pre with
    | nil => simp [App.runLines, hd]
    | cons l tl ih =>
      by_cases hl : lineStrip l = chars "data: [DONE]"
      · simp [App.runLines, hl]
      · simp only [List.cons_append, App.runLines]
        rw [if_neg hl, if_neg hl]
        cases App.processLine parse l with
        | skip => exact ih
        | yielded v =>
          show (⟨v :: (App.runLines parse (tl ++ d :: post)).fragments,
                  (App.runLines parse (tl ++ d :: post)).outcome⟩ : LoopResult)
              = ⟨v :: (App.runLines parse (tl ++ [d])).fragments,
                  (App.runLines parse (tl ++ [d])).outcome⟩
          rw [ih]
        | fatal => rfl
  · simp [App.runLines, hd]

/-- Witness for C3: a whitespace-padded terminal marker after one fragment
line cuts off a further fragment line. -/
theorem claim_C3_witness :
    App.runLines wParse ([line1] ++ chars "  data: [DONE]  " :: [line2])
      = App.runLines wParse ([line1] ++ [chars "  data: [DONE]  "])
    ∧ App.runLines wParse (chars "  data: [DONE]  " :: [line2])
      = ⟨[], LoopOutcome.done⟩ :=
  claim_C3 wParse [line1] [line2] (chars "  data: [DONE]  ") (by decide)

/-- Claim C4: constructing the client raises (the `ValueError` standing for
the spec's `ConfigurationError`) if and only if the configured API key is
absent or empty, regardless of every other configuration value — the
endpoint, empty or not, never matters — and a successful construction stores
exactly the two configured values. The constructor performs no HTTP exchange:
its embedding is a pure function of the secrets store alone. -/
theorem claim_C4 (s : Secrets) :
    (App.init s = Except.error InitError.valueError
      ↔ (s.azureOpenAIApiKey = none ∨ s.azureOpenAIApiKey = some ""))
    ∧ (∀ c, App.init s = Except.ok c →
        c = ⟨s.azureOpenAIApiEndpoint.getD "", s.azureOpenAIApiKey.getD ""⟩) := by
  constructor
  · cases hk : s.azureOpenAIApiKey with
    | none => simp [App.init, hk]
    | some k =>
      by_cases hke : k = ""
      · subst hke; simp [App.init, hk]
      · simp [App.init, hk, hke]
  · intro c hc
    by_cases hke : s.azureOpenAIApiKey.getD "" = ""
    · exact absurd hc (by simp [App.init, hke])
    · have hok : App.init s
          = Except.ok ⟨s.azureOpenAIApiEndpoint.getD "", s.azureOpenAIApiKey.getD ""⟩ := by
        simp [App.init, hke]
      rw [hok] at hc
      injection hc with h
      exact h.symm

/-- Witness for C4: an absent key fails construction even with an endpoint
present; an empty endpoint with a non-empty key succeeds, storing both. -/
theorem claim_C4_witness :
    App.init ⟨some "https://example.invalid/chat", none⟩
      = Except.error InitError.valueError
    ∧ (⟨"", "secret"⟩ : AzureOpenAIChat)
      = ⟨(some "").getD "", (some "secret").getD ""⟩ :=
  ⟨(claim_C4 ⟨some "https://example.invalid/chat", none⟩).1.mpr (Or.inl rfl),
   (claim_C4 ⟨some "", some "secret"⟩).2 ⟨"", "secret"⟩ rfl⟩

/-- Claim C5 (amended): a response whose final status is 4xx or 5xx — the
statuses on which `raise_for_status` raises — makes the call raise the
`RuntimeError` standing for the spec's `TransportError` with no fragment
yielded; a call that fails mid-stream after the delivered lines were decoded
without a terminal marker or an uncaught exception keeps every fragment
yielded before the failure and raises the same error thereafter; and a
failure of `requests.post` itself also raises it with no fragment yielded.
(As stated — `TransportError` on every non-2xx status — the claim is false:
`raise_for_status` does not raise on a 3xx status such as 304, see the
counterexample.) -/
theorem claim_C5 {F : Type} (parse : List Char → Option JValue)
    (c : AzureOpenAIChat) (a : StreamArgs F) :
    (∀ (status : Nat) (body : HttpBody), 400 ≤ status → status < 600 →
      (App.generate_response_stream parse c a (.response status body)).fragments = []
      ∧ (App.generate_response_stream parse c a (.response status body)).raised
          = some RaisedError.requestError)
    ∧ (∀ (status : Nat) (body : HttpBody), raiseForStatusFails status = false →
        body.midStreamError = true →
        (App.runLines parse body.lines).outcome = LoopOutcome.exhausted →
        (App.generate_response_stream parse c a (.response status body)).fragments
            = (App.runLines parse body.lines).fragments
        ∧ (App.generate_response_stream parse c a (.response status body)).raised
            = some RaisedError.requestError)
    ∧ (App.generate_response_stream parse c a .postError).fragments = []
    ∧ (App.generate_response_stream parse c a .postError).raised
        = some RaisedError.requestError := by
  refine ⟨?_, ?_, rfl, rfl⟩
  · intro status body h1 h2
    have hfail : raiseForStatusFails status = true := by
      simp [raiseForStatusFails, h1, h2]
    constructor <;> simp [App.generate_response_stream, App.httpPhase, hfail]
  · intro status body hr hm ho
    constructor <;>
      simp [App.generate_response_stream, App.httpPhase, hr, hm, ho]

/-- Witness for C5: a 401 response yields nothing and raises the transport
error; a 200 response that drops mid-stream after one decoded fragment keeps
that fragment and raises the transport error. -/
theorem claim_C5_witness :
    ((App.generate_response_stream wParse cexClient cexArgs
        (.response 401 ⟨[], false⟩)).fragments = []
      ∧ (App.generate_response_stream wParse cexClient cexArgs
          (.response 401 ⟨[], false⟩)).raised = some RaisedError.requestError)
    ∧ ((App.generate_response_stream wParse cexClient cexArgs
          (.response 200 ⟨[line1], true⟩)).fragments
        = (App.runLines wParse [line1]).fragments
      ∧ (App.generate_response_stream wParse cexClient cexArgs
          (.response 200 ⟨[line1], true⟩)).raised = some RaisedError.requestError) :=
  ⟨(claim_C5 wParse cexClient cexArgs).1 401 ⟨[], false⟩ (by decide) (by decide),
   (claim_C5 wParse cexClient cexArgs).2.1 200 ⟨[line1], true⟩ rfl rfl rfl⟩

/-- Counterexample to C5 as stated: a final status of 304 is not 2xx, yet
`raise_for_status` does not raise on it — the call proceeds to decode the
body, yields the fragment `Hi`, and raises nothing at all. -/
theorem claim_C5_counterexample :
    ¬ (200 ≤ 304 ∧ 304 < 300)
    ∧ (App.generate_response_stream wParse cexClient cexArgs
        (.response 304 ⟨[line1], false⟩)).fragments = [JValue.str "Hi"]
    ∧ (App.generate_response_stream wParse cexClient cexArgs
        (.response 304 ⟨[line1], false⟩)).raised = none :=
  ⟨by decide, rfl, rfl⟩

/-- Claim C6: every fully consumed call issues exactly one HTTP POST — the
embedding records the single `requests.post` of the source as the one
`request` of the run — to the configured endpoint, with the `api-key` header
holding the stored key, the JSON content type, and a body of a single
user-role message carrying the query, the four sampling parameters,
`max_tokens`, and `stream = true`. -/
theorem claim_C6 {F : Type} (parse : List Char → Option JValue)
    (c : AzureOpenAIChat) (a : StreamArgs F) (http : HttpOutcome) :
    (App.generate_response_stream parse c a http).request =
      { url := c.API_ENDPOINT
        headers := { contentType := "application/json", apiKey := c.API_KEY }
        body :=
          { messages := [{ role := "user", content := a.query }]
            max_tokens := a.max_tokens
            temperature := a.temperature
            top_p := a.top_p
            frequency_penalty := a.frequency_penalty
            presence_penalty := a.presence_penalty
            stream := true } } :=
  rfl

/-- Claim C7: a non-terminal `data: ` line whose payload decodes to an object
with a non-empty array member `choices` whose first element is an object
whose `delta` member is an object containing a string member `content` yields
exactly that string as the next fragment of the sequence. -/
theorem claim_C7 (parse : List Char → Option JValue) (line : List Char)
    (rest : List (List Char)) (fields g dfs : List (String × JValue))
    (choicesTail : List JValue) (s : String)
    (hterm : ¬ lineStrip line = chars "data: [DONE]")
    (hpre : (chars "data: ").isPrefixOf line = true)
    (hparse : parse (line.drop 6) = some (JValue.obj fields))
    (hch : jsonLookup (JValue.obj fields) "choices"
        = some (JValue.arr (JValue.obj g :: choicesTail)))
    (hdelta : jsonLookup (JValue.obj g) "delta" = some (JValue.obj dfs))
    (hcontent : jsonLookup (JValue.obj dfs) "content" = some (JValue.str s)) :
    App.runLines parse (line :: rest)
      = ⟨JValue.str s :: (App.runLines parse rest).fragments,
         (App.runLines parse rest).outcome⟩ := by
  have hyield : App.processLine parse line = LineStep.yielded (JValue.str s) := by
    simp [App.processLine, hpre, hparse,
      App.processPayload_yield fields g dfs choicesTail (JValue.str s) hch hdelta hcontent]
  simp [App.runLines, hterm, hyield]

/-- Witness for C7: the well-formed `Hi` event line yields the fragment `Hi`
at the head of the sequence. -/
theorem claim_C7_witness :
    App.runLines wParse [line1]
      = ⟨JValue.str "Hi" :: (App.runLines wParse []).fragments,
         (App.runLines wParse []).outcome⟩ :=
  claim_C7 wParse line1 []
    [("choices", JValue.arr [JValue.obj [("delta", JValue.obj [("content", JValue.str "Hi")])]])]
    [("delta", JValue.obj [("content", JValue.str "Hi")])]
    [("content", JValue.str "Hi")]
    [] "Hi" (by decide) rfl rfl rfl rfl rfl

/-- Claim C8: a call leaves the client unchanged — the stored endpoint and
key after the call are those before it, and the client has no other state —
so a later call on the post-state client behaves exactly as on the original
client: calls are independent. -/
theorem claim_C8 {F : Type} (parse : List Char → Option JValue)
    (c : AzureOpenAIChat) (a a2 : StreamArgs F) (http http2 : HttpOutcome) :
    (App.generate_response_stream_call parse c a http).2 = c
    ∧ App.generate_response_stream_call parse
        (App.generate_response_stream_call parse c a http).2 a2 http2
      = App.generate_response_stream_call parse c a2 http2 :=
  ⟨rfl, rfl⟩

/-- Claim C9: the `AzureOpenAIChat` class of `src/app.py` and the one of
`streamlit_app.py` are behaviourally equivalent: on every secrets store the
constructors agree, and on every configuration, argument list, JSON oracle
and HTTP outcome the two `generate_response_stream` embeddings produce the
same request, the same fragment sequence and the same raised error. -/
theorem claim_C9 :
    (∀ s : Secrets, StreamlitApp.init s = App.init s)
    ∧ (∀ (F : Type) (parse : List Char → Option JValue) (c : AzureOpenAIChat)
        (a : StreamArgs F) (http : HttpOutcome),
        StreamlitApp.generate_response_stream parse c a http
          = App.generate_response_stream parse c a http) := by
  refine ⟨fun s => rfl, fun F parse c a http => ?_⟩
  unfold StreamlitApp.generate_response_stream App.generate_response_stream
  rw [streamlit_httpPhase_eq]

/-- Claim C10: `generate_response_stream` validates none of its inputs: for
every query (the empty string included) and all values of the numeric
parameters, in or out of the ranges of the data model, the issued request
body carries exactly the given values, and the yielded fragments and raised
error are identical to those of the same call with any other argument values
— so no argument value makes the call raise. -/
theorem claim_C10 {F : Type} (parse : List Char → Option JValue)
    (c : AzureOpenAIChat) (a a' : StreamArgs F) (http : HttpOutcome) :
    (App.generate_response_stream parse c a http).request.body =
      { messages := [{ role := "user", content := a.query }]
        max_tokens := a.max_tokens
        temperature := a.temperature
        top_p := a.top_p
        frequency_penalty := a.frequency_penalty
        presence_penalty := a.presence_penalty
        stream := true }
    ∧ (App.generate_response_stream parse c a http).fragments
        = (App.generate_response_stream parse c a' http).fragments
    ∧ (App.generate_response_stream parse c a http).raised
        = (App.generate_response_stream parse c a' http).raised :=
  ⟨rfl, rfl, rfl⟩
